import Mathlib


/-!
Shallow embedding of `src/python_tools/etl.py` (the change-detection and
version-reconciliation pipeline of 56webb/card-liff).

The embedded function is `main` of `etl.py`.  Its external collaborators
(`BankCrawler.process_card_url`, `RewardsParser.parse_markdown_to_json`,
and the write operations of `DatabaseOps`) are not part of the repository
source under `src/`; per the spec they are external components with fixed
contracts, so a run is parameterised by a `Behavior` value describing what
each collaborator call returns or whether it raises.  The durable state
(`card_versions` and `crawl_log` rows) is a `Store`; the top-level
`try ... except Exception` of `main` is modelled by the `.fatal`
termination, which swallows the exception and keeps whatever writes
already happened.
-/

/-- The dictionary returned by `crawler.process_card_url`.  The code reads
`crawl_result['status']`, `crawl_result.get('error')`,
`crawl_result['content']` and `crawl_result['hash']`; the last two are
`Option`s because a direct `[...]` access on a missing key raises
`KeyError` (caught by the catch-all). -/
structure CrawlResult where
  status : String
  error : Option String
  content : Option String
  hash : Option String
deriving Repr, DecidableEq

/-- The JSON object returned by `parser.parse_markdown_to_json`,
modelled as an association list of fields. -/
abbrev Rewards : Type := List (String × String)

/-- `k in d` on a Python dict: membership of a key. -/
def hasKey (r : Rewards) (k : String) : Bool :=
  List.any r (fun p => p.1 == k)

/-- `d[k]` on a Python dict, as an `Option` (a `none` models `KeyError`). -/
def lookupKey (r : Rewards) (k : String) : Option String :=
  Option.map Prod.snd (List.find? (fun p => p.1 == k) r)

/-- One row of the versions table, as written by `db.save_card_version`. -/
structure ContentVersion where
  card_id : Nat
  version_name : String
  hash_val : String
  rewards : Rewards
  raw_content : String
deriving Repr, DecidableEq

/-- One row of the crawl log, as written by `db.log_crawl_result`. -/
structure CrawlOutcome where
  card_id : Nat
  status : String
  error : Option String
deriving Repr, DecidableEq

/-- The durable state the pipeline writes to: versions are append-only,
outcomes are append-only. -/
structure Store where
  versions : List ContentVersion
  outcomes : List CrawlOutcome
deriving Repr, DecidableEq

def emptyStore : Store := ⟨[], []⟩

/-- The version rows belonging to one card. -/
def Store.versionsFor (s : Store) (cid : Nat) : List ContentVersion :=
  List.filter (fun v => v.card_id == cid) s.versions

/-- The crawl-log rows belonging to one card. -/
def Store.outcomesFor (s : Store) (cid : Nat) : List CrawlOutcome :=
  List.filter (fun o => o.card_id == cid) s.outcomes

/-- `db.get_latest_card_version(card_id)` followed by
`last_version['source_content_hash'] if last_version else None`:
the hash of the most recently appended version row of the card. -/
def Store.latestHash (s : Store) (cid : Nat) : Option String :=
  Option.map (fun v => v.hash_val) (s.versionsFor cid).getLast?

/-- One run's collaborator behaviour.  `setupOk` is whether the calls
before the crawl (`get_or_create_bank`, `get_or_create_card`,
`get_latest_card_version`) return normally; `crawl` and `parse` either
return a value (`Except.ok`) or raise (`Except.error`); `saveOk` and
`logOk` are whether `db.save_card_version` and `db.log_crawl_result`
return normally (a raising write performs no write). -/
structure Behavior where
  setupOk : Bool
  crawl : Option String → Except String CrawlResult
  parse : String → Except String Rewards
  saveOk : Bool
  logOk : Bool

/-- How one invocation of `main` ends: either it returned after logging a
crawl outcome of the given kind and detail, or some call raised and the
top-level `except Exception` handler caught it (only writing to the
logger, not to the store). -/
inductive Termination where
  | outcome (kind : String) (detail : Option String)
  | fatal
deriving Repr, DecidableEq

def Termination.isSuccess : Termination → Bool
  | .outcome k _ => k == "SUCCESS"
  | .fatal => false

/-- `db.log_crawl_result(card_id, kind, detail)`: appends a crawl-log row,
or raises (modelled by `logOk = false`), in which case no row is written
and control goes to the catch-all. -/
def logResult (b : Behavior) (s : Store) (cid : Nat) (kind : String)
    (detail : Option String) : Store × Termination :=
  if b.logOk then
    ({ s with outcomes := s.outcomes ++ [⟨cid, kind, detail⟩] },
     .outcome kind detail)
  else (s, .fatal)

/-- The body of `main` in `etl.py`, from the `try:` down to the final
`db.log_crawl_result(card_id, "SUCCESS")`, for one card `cid` against
store `s`.  Mirrors the source line by line:
reads the latest hash, calls the crawler with it, short-circuits on
status `"NO_CHANGE"` and `"FAILED"`, otherwise reads `content` and
`hash` from the result dict, calls the parser, branches on
`"error" in rewards_json`, and on the success path performs the two
sequential writes `save_card_version` then `log_crawl_result("SUCCESS")`.
Any raising call ends in `.fatal` with the store as written so far. -/
def runMain (b : Behavior) (cid : Nat) (s : Store) : Store × Termination :=
  if b.setupOk = false then (s, .fatal)
  else
    match b.crawl (s.latestHash cid) with
    | .error _ => (s, .fatal)
    | .ok cr =>
      if cr.status = "NO_CHANGE" then
        logResult b s cid "NO_CHANGE" none
      else if cr.status = "FAILED" then
        logResult b s cid "FAILED" cr.error
      else
        match cr.content with
        | none => (s, .fatal)
        | some md =>
          match cr.hash with
          | none => (s, .fatal)
          | some h =>
            match b.parse md with
            | .error _ => (s, .fatal)
            | .ok rj =>
              if hasKey rj "error" = true then
                logResult b s cid "AI_FAILED" (lookupKey rj "error")
              else if b.saveOk = false then (s, .fatal)
              else
                logResult b
                  { s with versions :=
                      s.versions ++ [⟨cid, "2026-Q1", h, rj, md⟩] }
                  cid "SUCCESS" none

/-- A sequence of reconciliation runs for one card, each with its own
collaborator behaviour, threading the store; returns the final store and
the termination of each run in order. -/
def runAll (bs : List Behavior) (cid : Nat) (s : Store) :
    Store × List Termination :=
  match bs with
  | [] => (s, [])
  | b :: rest =>
    let r := runMain b cid s
    let rr := runAll rest cid r.1
    (rr.1, r.2 :: rr.2)

/-- Number of runs in a trace that terminated with a SUCCESS outcome. -/
def successCount (ts : List Termination) : Nat :=
  (List.filter Termination.isSuccess ts).length

/-- The crawler contract of spec section 6: when the status is neither
`"NO_CHANGE"` nor `"FAILED"` (i.e. the changed case), the result carries
the content and the fingerprint. -/
def CrawlResult.wellFormed (cr : CrawlResult) : Prop :=
  cr.status ≠ "NO_CHANGE" → cr.status ≠ "FAILED" →
    (∃ md, cr.content = some md) ∧ (∃ h, cr.hash = some h)

/-- A behaviour in which no collaborator call raises and the crawler
keeps its contract. -/
def Behavior.noRaise (b : Behavior) : Prop :=
  b.setupOk = true ∧ b.saveOk = true ∧ b.logOk = true ∧
  (∀ lh, ∃ cr, b.crawl lh = Except.ok cr ∧ cr.wellFormed) ∧
  (∀ md, ∃ rj, b.parse md = Except.ok rj)

/-- A fetcher over fixed remote content `c` with fingerprint `h` that
performs the fingerprint comparison itself, as spec section 4.1 step 1
describes: it short-circuits to `NO_CHANGE` exactly when the supplied
last-known fingerprint equals the remote fingerprint. -/
def honestCrawl (c h : String) : Option String → Except String CrawlResult :=
  fun lastHash =>
    if lastHash = some h then
      Except.ok ⟨"NO_CHANGE", none, none, none⟩
    else
      Except.ok ⟨"CHANGED", none, some c, some h⟩

theorem runMain_noChange (b : Behavior) (cid : Nat) (s : Store) (cr : CrawlResult)
    (h1 : b.setupOk = true)
    (h2 : b.crawl (s.latestHash cid) = Except.ok cr)
    (h3 : cr.status = "NO_CHANGE") :
    runMain b cid s = logResult b s cid "NO_CHANGE" none := by
  unfold runMain
  rw [h1, h2]
  simp [h3]

theorem runMain_fetchFailed (b : Behavior) (cid : Nat) (s : Store) (cr : CrawlResult)
    (h1 : b.setupOk = true)
    (h2 : b.crawl (s.latestHash cid) = Except.ok cr)
    (h3 : cr.status = "FAILED") :
    runMain b cid s = logResult b s cid "FAILED" cr.error := by
  unfold runMain
  rw [h1, h2]
  simp [h3]

theorem runMain_aiFailed (b : Behavior) (cid : Nat) (s : Store) (cr : CrawlResult)
    (md h : String) (rj : Rewards)
    (h1 : b.setupOk = true)
    (h2 : b.crawl (s.latestHash cid) = Except.ok cr)
    (h3 : cr.status ≠ "NO_CHANGE") (h4 : cr.status ≠ "FAILED")
    (h5 : cr.content = some md) (h6 : cr.hash = some h)
    (h7 : b.parse md = Except.ok rj)
    (h8 : hasKey rj "error" = true) :
    runMain b cid s = logResult b s cid "AI_FAILED" (lookupKey rj "error") := by
  unfold runMain
  rw [h1, h2]
  simp [h3, h4, h5, h6, h7, h8]

theorem runMain_success (b : Behavior) (cid : Nat) (s : Store) (cr : CrawlResult)
    (md h : String) (rj : Rewards)
    (h1 : b.setupOk = true)
    (h2 : b.crawl (s.latestHash cid) = Except.ok cr)
    (h3 : cr.status ≠ "NO_CHANGE") (h4 : cr.status ≠ "FAILED")
    (h5 : cr.content = some md) (h6 : cr.hash = some h)
    (h7 : b.parse md = Except.ok rj)
    (h8 : hasKey rj "error" = false)
    (h9 : b.saveOk = true) :
    runMain b cid s =
      logResult b { s with versions := s.versions ++ [⟨cid, "2026-Q1", h, rj, md⟩] }
        cid "SUCCESS" none := by
  unfold runMain
  rw [h1, h2]
  simp [h3, h4, h5, h6, h7, h8, h9]

theorem runMain_shape (b : Behavior) (cid : Nat) (s : Store) :
    runMain b cid s = (s, Termination.fatal) ∨
    (∃ k d, (k = "NO_CHANGE" ∨ k = "FAILED" ∨ k = "AI_FAILED") ∧
      runMain b cid s =
        ({ s with outcomes := s.outcomes ++ [⟨cid, k, d⟩] },
         Termination.outcome k d)) ∨
    (∃ v : ContentVersion, v.card_id = cid ∧
      runMain b cid s =
        ({ versions := s.versions ++ [v],
           outcomes := s.outcomes ++ [⟨cid, "SUCCESS", none⟩] },
         Termination.outcome "SUCCESS" none)) ∨
    (b.logOk = false ∧ ∃ v : ContentVersion, v.card_id = cid ∧
      runMain b cid s = ({ s with versions := s.versions ++ [v] },
        Termination.fatal)) := by
  unfold runMain logResult
  split
  · exact Or.inl rfl
  split
  · exact Or.inl rfl
  split
  · split
    · refine Or.inr (Or.inl ⟨"NO_CHANGE", none, by simp, rfl⟩)
    · exact Or.inl rfl
  split
  · split
    · refine Or.inr (Or.inl ⟨"FAILED", _, by simp, rfl⟩)
    · exact Or.inl rfl
  split
  · exact Or.inl rfl
  split
  · exact Or.inl rfl
  split
  · exact Or.inl rfl
  split
  · split
    · refine Or.inr (Or.inl ⟨"AI_FAILED", _, by simp, rfl⟩)
    · exact Or.inl rfl
  split
  · exact Or.inl rfl
  split
  · refine Or.inr (Or.inr (Or.inl ⟨_, rfl, rfl⟩))
  · rename_i hlog
    refine Or.inr (Or.inr (Or.inr ⟨by simpa using hlog, _, rfl, rfl⟩))

theorem logResult_ok (b : Behavior) (s : Store) (cid : Nat) (kind : String)
    (detail : Option String) (h : b.logOk = true) :
    logResult b s cid kind detail =
      ({ s with outcomes := s.outcomes ++ [⟨cid, kind, detail⟩] },
       Termination.outcome kind detail) := by
  simp [logResult, h]

theorem versionsFor_set_outcomes (s : Store) (cid : Nat) (os : List CrawlOutcome) :
    Store.versionsFor { s with outcomes := os } cid = s.versionsFor cid := rfl

theorem versionsFor_append_version (s : Store) (cid : Nat) (v : ContentVersion)
    (hv : v.card_id = cid) (os : List CrawlOutcome) :
    Store.versionsFor { versions := s.versions ++ [v], outcomes := os } cid
      = s.versionsFor cid ++ [v] := by
  simp [Store.versionsFor, List.filter_append, hv]

theorem versions_len_runMain (b : Behavior) (cid : Nat) (s : Store)
    (hlog : b.logOk = true) :
    ((runMain b cid s).1.versionsFor cid).length
      = (s.versionsFor cid).length
        + (if (runMain b cid s).2.isSuccess then 1 else 0) := by
  rcases runMain_shape b cid s with h | ⟨k, d, hk, h⟩ | ⟨v, hv, h⟩ | ⟨hl, _⟩
  · rw [h]; simp [Termination.isSuccess]
  · rw [h]
    have hks : (k == "SUCCESS") = false := by
      rcases hk with rfl | rfl | rfl <;> rfl
    simp [versionsFor_set_outcomes, Termination.isSuccess, hks]
  · rw [h]
    simp [versionsFor_append_version s cid v hv, Termination.isSuccess]
  · rw [hlog] at hl; cases hl

theorem successCount_cons (t : Termination) (ts : List Termination) :
    successCount (t :: ts)
      = (if t.isSuccess then 1 else 0) + successCount ts := by
  by_cases h : t.isSuccess = true
  · simp [successCount, List.filter_cons, h, Nat.add_comm]
  · simp [successCount, List.filter_cons, h]

theorem versions_len_runAll (bs : List Behavior) (cid : Nat) (s : Store)
    (hlog : ∀ b ∈ bs, b.logOk = true) :
    ((runAll bs cid s).1.versionsFor cid).length
      = (s.versionsFor cid).length + successCount (runAll bs cid s).2 := by
  induction bs generalizing s with
  | nil => simp [runAll, successCount]
  | cons b rest ih =>
    simp only [runAll, successCount_cons]
    rw [ih (runMain b cid s).1 (fun x hx => hlog x (List.mem_cons_of_mem b hx)),
      versions_len_runMain b cid s (hlog b (List.mem_cons_self b rest))]
    omega

theorem runMain_noRaise (b : Behavior) (cid : Nat) (s : Store) (hb : b.noRaise) :
    ∃ k d, runMain b cid s
      = ({ s with outcomes := s.outcomes ++ [⟨cid, k, d⟩] },
         Termination.outcome k d) ∨
      ∃ v : ContentVersion, k = "SUCCESS" ∧ d = none ∧ v.card_id = cid ∧
        runMain b cid s
          = ({ versions := s.versions ++ [v],
               outcomes := s.outcomes ++ [⟨cid, k, d⟩] },
             Termination.outcome k d) := by
  obtain ⟨hs, hsave, hlog, hcrawl, hparse⟩ := hb
  obtain ⟨cr, hcr, hwf⟩ := hcrawl (s.latestHash cid)
  by_cases hnc : cr.status = "NO_CHANGE"
  · exact ⟨"NO_CHANGE", none, Or.inl (by
      rw [runMain_noChange b cid s cr hs hcr hnc, logResult_ok b s cid _ _ hlog])⟩
  by_cases hf : cr.status = "FAILED"
  · exact ⟨"FAILED", cr.error, Or.inl (by
      rw [runMain_fetchFailed b cid s cr hs hcr hf, logResult_ok b s cid _ _ hlog])⟩
  obtain ⟨⟨md, hmd⟩, ⟨h, hh⟩⟩ := hwf hnc hf
  obtain ⟨rj, hrj⟩ := hparse md
  by_cases hk : hasKey rj "error" = true
  · exact ⟨"AI_FAILED", lookupKey rj "error", Or.inl (by
      rw [runMain_aiFailed b cid s cr md h rj hs hcr hnc hf hmd hh hrj hk,
        logResult_ok b s cid _ _ hlog])⟩
  · refine ⟨"SUCCESS", none, Or.inr ⟨⟨cid, "2026-Q1", h, rj, md⟩, rfl, rfl, rfl, ?_⟩⟩
    rw [runMain_success b cid s cr md h rj hs hcr hnc hf hmd hh hrj
      (Bool.eq_false_iff.mpr hk) hsave, logResult_ok b _ cid _ _ hlog]

theorem outcomesFor_append (s : Store) (cid : Nat) (o : CrawlOutcome)
    (ho : o.card_id = cid) (vs : List ContentVersion) :
    Store.outcomesFor { versions := vs, outcomes := s.outcomes ++ [o] } cid
      = s.outcomesFor cid ++ [o] := by
  simp [Store.outcomesFor, List.filter_append, ho]

theorem outcomes_len_runMain (b : Behavior) (cid : Nat) (s : Store)
    (hb : b.noRaise) :
    ((runMain b cid s).1.outcomesFor cid).length
      = (s.outcomesFor cid).length + 1 := by
  obtain ⟨k, d, h | ⟨v, _, _, _, h⟩⟩ := runMain_noRaise b cid s hb <;>
    rw [h] <;> simp [outcomesFor_append s cid ⟨cid, k, d⟩ rfl]

theorem outcomes_len_runAll (bs : List Behavior) (cid : Nat) (s : Store)
    (hb : ∀ b ∈ bs, b.noRaise) :
    ((runAll bs cid s).1.outcomesFor cid).length
      = (s.outcomesFor cid).length + bs.length := by
  induction bs generalizing s with
  | nil => simp [runAll]
  | cons b rest ih =>
    simp only [runAll, List.length_cons]
    rw [ih (runMain b cid s).1 (fun x hx => hb x (List.mem_cons_of_mem b hx)),
      outcomes_len_runMain b cid s (hb b (List.mem_cons_self b rest))]
    omega

theorem runMain_success_inv (b : Behavior) (cid : Nat) (s : Store)
    (hsuc : (runMain b cid s).2.isSuccess = true) :
    b.setupOk = true ∧ b.logOk = true ∧
    ∃ cr md h rj, b.crawl (s.latestHash cid) = Except.ok cr ∧
      cr.status ≠ "NO_CHANGE" ∧ cr.hash = some h ∧
      (runMain b cid s).1
        = { versions := s.versions ++ [⟨cid, "2026-Q1", h, rj, md⟩],
            outcomes := s.outcomes ++ [⟨cid, "SUCCESS", none⟩] } := by
  revert hsuc
  unfold runMain logResult
  split
  · intro h; simp [Termination.isSuccess] at h
  split
  · intro h; simp [Termination.isSuccess] at h
  split
  · split <;> intro h <;> simp [Termination.isSuccess] at h
  split
  · split <;> intro h <;> simp [Termination.isSuccess] at h
  split
  · intro h; simp [Termination.isSuccess] at h
  split
  · intro h; simp [Termination.isSuccess] at h
  split
  · intro h; simp [Termination.isSuccess] at h
  split
  · split <;> intro h <;> simp [Termination.isSuccess] at h
  split
  · intro h; simp [Termination.isSuccess] at h
  split
  · intro _
    rename_i hsetup x1 cr heqc hnc hf x2 md heqmd x3 hsh heqh x4 rj heqp hk hsave hlog hsuc
    exact ⟨by simpa using hsetup, hlog, cr, md, hsh, rj, heqc, hnc, heqh, rfl⟩
  · intro h; simp [Termination.isSuccess] at h

theorem latestHash_append (s : Store) (cid : Nat) (v : ContentVersion)
    (hv : v.card_id = cid) (os : List CrawlOutcome) :
    Store.latestHash { versions := s.versions ++ [v], outcomes := os } cid
      = some v.hash_val := by
  simp [Store.latestHash, versionsFor_append_version s cid v hv]

theorem honest_second_run (c h : String) (b : Behavior) (cid : Nat) (s : Store)
    (hcr : b.crawl = honestCrawl c h)
    (hsuc : (runMain b cid s).2.isSuccess = true) :
    runMain b cid (runMain b cid s).1
      = ({ (runMain b cid s).1 with outcomes :=
            (runMain b cid s).1.outcomes ++ [⟨cid, "NO_CHANGE", none⟩] },
         Termination.outcome "NO_CHANGE" none) := by
  obtain ⟨hsetup, hlog, cr, md, hh, rj, hcrw, hnc, hhash, hst⟩ :=
    runMain_success_inv b cid s hsuc
  have hx : cr = ⟨"CHANGED", none, some c, some h⟩ := by
    rw [hcr] at hcrw
    unfold honestCrawl at hcrw
    split at hcrw
    · exact absurd (by cases hcrw; rfl) hnc
    · cases hcrw; rfl
  have hh_eq : hh = h := by rw [hx] at hhash; cases hhash; rfl
  have hl2 : Store.latestHash (runMain b cid s).1 cid = some h := by
    rw [hst, latestHash_append s cid _ rfl]
    simp [hh_eq]
  have hcr2 : b.crawl (Store.latestHash (runMain b cid s).1 cid)
      = Except.ok ⟨"NO_CHANGE", none, none, none⟩ := by
    rw [hl2, hcr]; unfold honestCrawl; simp
  rw [runMain_noChange b cid (runMain b cid s).1 _ hsetup hcr2 rfl,
    logResult_ok b _ cid _ _ hlog]

/-- A crawler call that always reports changed content `c` with
fingerprint `h`, ignoring the last-known fingerprint. -/
def crawlChanged (c h : String) : Option String → Except String CrawlResult :=
  fun _ => Except.ok ⟨"CHANGED", none, some c, some h⟩

/-- A parser that returns a rewards object with no `error` field. -/
def parseGood : String → Except String Rewards :=
  fun _ => Except.ok [("cashback", "2 percent")]

/-- A run in which everything works except that `db.log_crawl_result`
raises: fetch reports CHANGED, parsing succeeds, `save_card_version`
succeeds, then the outcome write raises and the catch-all swallows it. -/
def bLogRaise : Behavior := ⟨true, crawlChanged "c1" "h1", parseGood, true, false⟩

/-- Counterexample to C1: after one run of `bLogRaise` the target has one
ContentVersion but zero runs terminated with SUCCESS (and zero
CrawlOutcome rows at all), so the created-iff-SUCCESS invariant and the
count equality both fail on the code. -/
theorem claim_C1_counterexample :
    ((runAll [bLogRaise] 7 emptyStore).1.versionsFor 7).length = 1 ∧
    successCount (runAll [bLogRaise] 7 emptyStore).2 = 0 ∧
    (runAll [bLogRaise] 7 emptyStore).1.outcomes = [] := by
  decide

/-- C1 (amended): provided `db.log_crawl_result` never raises, after any
number of runs for a target the number of its ContentVersion rows has
grown by exactly the number of runs that terminated with a SUCCESS
outcome (and a version is created in a run iff that run is a SUCCESS). -/
theorem claim_C1 (bs : List Behavior) (cid : Nat) (s : Store)
    (hlog : ∀ b ∈ bs, b.logOk = true) :
    ((runAll bs cid s).1.versionsFor cid).length
      = (s.versionsFor cid).length + successCount (runAll bs cid s).2 :=
  versions_len_runAll bs cid s hlog

/-- A fully well-behaved run used to instantiate amended C1. -/
def bGoodC1 : Behavior := ⟨true, crawlChanged "cw" "hw", parseGood, true, true⟩

/-- Witness for amended C1 at one concrete run. -/
theorem claim_C1_witness :
    ((runAll [bGoodC1] 3 emptyStore).1.versionsFor 3).length
      = (emptyStore.versionsFor 3).length
        + successCount (runAll [bGoodC1] 3 emptyStore).2 := by
  have hl : ∀ b ∈ [bGoodC1], b.logOk = true := by
    intro b hb
    rw [List.mem_singleton] at hb
    subst hb
    rfl
  exact claim_C1 [bGoodC1] 3 emptyStore hl

/-- A run in which the crawler call itself raises an exception. -/
def bCrawlRaise : Behavior :=
  ⟨true, fun _ => Except.error "render crashed", parseGood, true, true⟩

/-- Counterexample to C2: one run was invoked for card 5, but the crawler
raised, the catch-all swallowed it, and zero CrawlOutcome rows exist. -/
theorem claim_C2_counterexample :
    List.length [bCrawlRaise] = 1 ∧
    ((runAll [bCrawlRaise] 5 emptyStore).1.outcomesFor 5).length = 0 := by
  decide

/-- C2 (amended): every run in which no collaborator call raises (and the
crawler keeps its contract of carrying content and hash in the changed
case) records exactly one CrawlOutcome, so over any number of such runs
the outcome count for the target grows by the number of runs invoked. -/
theorem claim_C2 (bs : List Behavior) (cid : Nat) (s : Store)
    (hb : ∀ b ∈ bs, b.noRaise) :
    ((runAll bs cid s).1.outcomesFor cid).length
      = (s.outcomesFor cid).length + bs.length :=
  outcomes_len_runAll bs cid s hb

/-- A fully well-behaved run used to instantiate amended C2. -/
def bGoodC2 : Behavior := ⟨true, crawlChanged "cw2" "hw2", parseGood, true, true⟩

/-- Witness for amended C2 at one concrete run. -/
theorem claim_C2_witness :
    ((runAll [bGoodC2] 3 emptyStore).1.outcomesFor 3).length
      = (emptyStore.outcomesFor 3).length + List.length [bGoodC2] := by
  have hb : ∀ b ∈ [bGoodC2], b.noRaise := by
    intro b hb0
    rw [List.mem_singleton] at hb0
    subst hb0
    exact ⟨rfl, rfl, rfl,
      fun lh => ⟨⟨"CHANGED", none, some "cw2", some "hw2"⟩, rfl,
        fun _ _ => ⟨⟨"cw2", rfl⟩, ⟨"hw2", rfl⟩⟩⟩,
      fun md => ⟨[("cashback", "2 percent")], rfl⟩⟩
  exact claim_C2 [bGoodC2] 3 emptyStore hb

/-- A run in which the crawler raises a timeout exception. -/
def bC3crash : Behavior :=
  ⟨true, fun _ => Except.error "timeout", parseGood, true, true⟩

/-- Counterexample to C3: a fetch failure surfaced as a raised exception
is caught by the generic top-level handler, but it is not converted into
any logged CrawlOutcome and the run terminates in none of the four
outcome kinds. -/
theorem claim_C3_counterexample :
    (runMain bC3crash 6 emptyStore).2 = Termination.fatal ∧
    (runMain bC3crash 6 emptyStore).1.outcomes = [] := by
  decide

/-- C3 (amended): no run ever propagates an exception to the caller (the
embedded `runMain` is total and every raising call ends in the swallowed
`.fatal` termination); every run either terminates in one of the four
outcome kinds NO_CHANGE, FAILED, AI_FAILED, SUCCESS, or ends in the
top-level catch-all with no outcome logged. -/
theorem claim_C3 (b : Behavior) (cid : Nat) (s : Store) :
    (runMain b cid s).2 = Termination.fatal ∨
    ∃ k d, (runMain b cid s).2 = Termination.outcome k d ∧
      (k = "NO_CHANGE" ∨ k = "FAILED" ∨ k = "AI_FAILED" ∨ k = "SUCCESS") := by
  rcases runMain_shape b cid s with h | ⟨k, d, hk, h⟩ | ⟨v, hv, h⟩ | ⟨hl, v, hv, h⟩
  · rw [h]; exact Or.inl rfl
  · rw [h]; exact Or.inr ⟨k, d, rfl, by tauto⟩
  · rw [h]; exact Or.inr ⟨"SUCCESS", none, rfl, by tauto⟩
  · rw [h]; exact Or.inl rfl

/-- A success-path run in which `db.log_crawl_result` raises after
`db.save_card_version` succeeded. -/
def bC4partial : Behavior :=
  ⟨true, crawlChanged "c4" "h4", parseGood, true, false⟩

/-- Counterexample to C4: on the success path with a raising outcome
write, the store ends with the version saved and no outcome logged — the
partial-commit state the claim says is never reachable. -/
theorem claim_C4_counterexample :
    (runMain bC4partial 9 emptyStore).1.versions
      = [⟨9, "2026-Q1", "h4", [("cashback", "2 percent")], "c4"⟩] ∧
    (runMain bC4partial 9 emptyStore).1.outcomes = [] := by
  decide

/-- C4 (amended): on the success path (fetch reported changed content,
the parsed rewards have no `error` field) with both DB writes returning
normally, the ContentVersion write and the SUCCESS CrawlOutcome write
both occur in that run; but the two writes are sequential and not
transactional, so when the outcome write raises after the version write
succeeded, a version-saved-without-outcome state is reachable. -/
theorem claim_C4 (b : Behavior) (cid : Nat) (s : Store) (cr : CrawlResult)
    (md h : String) (rj : Rewards)
    (h1 : b.setupOk = true)
    (h2 : b.crawl (s.latestHash cid) = Except.ok cr)
    (h3 : cr.status ≠ "NO_CHANGE") (h4 : cr.status ≠ "FAILED")
    (h5 : cr.content = some md) (h6 : cr.hash = some h)
    (h7 : b.parse md = Except.ok rj)
    (h8 : hasKey rj "error" = false)
    (h9 : b.saveOk = true) (h10 : b.logOk = true) :
    runMain b cid s =
      ({ versions := s.versions ++ [⟨cid, "2026-Q1", h, rj, md⟩],
         outcomes := s.outcomes ++ [⟨cid, "SUCCESS", none⟩] },
       Termination.outcome "SUCCESS" none) := by
  rw [runMain_success b cid s cr md h rj h1 h2 h3 h4 h5 h6 h7 h8 h9,
    logResult_ok b _ cid _ _ h10]

/-- A fully well-behaved success-path run used to instantiate amended C4. -/
def bGoodC4 : Behavior := ⟨true, crawlChanged "cc" "hh", parseGood, true, true⟩

/-- Witness for amended C4 at one concrete run. -/
theorem claim_C4_witness :
    runMain bGoodC4 1 emptyStore =
      ({ versions :=
           emptyStore.versions
             ++ [⟨1, "2026-Q1", "hh", [("cashback", "2 percent")], "cc"⟩],
         outcomes := emptyStore.outcomes ++ [⟨1, "SUCCESS", none⟩] },
       Termination.outcome "SUCCESS" none) :=
  claim_C4 bGoodC4 1 emptyStore ⟨"CHANGED", none, some "cc", some "hh"⟩
    "cc" "hh" [("cashback", "2 percent")]
    rfl rfl (by decide) (by decide) rfl rfl rfl rfl rfl rfl

/-- C5 (Scenario A, confirmed): the target has no prior version, fetch
returns CHANGED with content `c1` and fingerprint `f1`, extraction
succeeds with payload `p1` (no `error` field), and the DB calls return
normally; then the run's effect is exactly one new ContentVersion
carrying `f1`, `p1` and raw content `c1`, plus exactly one SUCCESS
CrawlOutcome. -/
theorem claim_C5 (b : Behavior) (cid : Nat) (s : Store)
    (c1 f1 : String) (p1 : Rewards)
    (hprior : s.versionsFor cid = [])
    (h1 : b.setupOk = true)
    (h2 : b.crawl none = Except.ok ⟨"CHANGED", none, some c1, some f1⟩)
    (h7 : b.parse c1 = Except.ok p1)
    (h8 : hasKey p1 "error" = false)
    (h9 : b.saveOk = true) (h10 : b.logOk = true) :
    runMain b cid s =
      ({ versions := s.versions ++ [⟨cid, "2026-Q1", f1, p1, c1⟩],
         outcomes := s.outcomes ++ [⟨cid, "SUCCESS", none⟩] },
       Termination.outcome "SUCCESS" none) ∧
    (runMain b cid s).1.versionsFor cid = [⟨cid, "2026-Q1", f1, p1, c1⟩] := by
  have hlh : s.latestHash cid = none := by
    simp [Store.latestHash, hprior]
  have h2a : b.crawl (s.latestHash cid)
      = Except.ok ⟨"CHANGED", none, some c1, some f1⟩ := by
    rw [hlh]; exact h2
  have hmain : runMain b cid s =
      ({ versions := s.versions ++ [⟨cid, "2026-Q1", f1, p1, c1⟩],
         outcomes := s.outcomes ++ [⟨cid, "SUCCESS", none⟩] },
       Termination.outcome "SUCCESS" none) := by
    rw [runMain_success b cid s ⟨"CHANGED", none, some c1, some f1⟩ c1 f1 p1
      h1 h2a (show ("CHANGED" : String) ≠ "NO_CHANGE" by decide)
      (show ("CHANGED" : String) ≠ "FAILED" by decide) rfl rfl h7 h8 h9,
      logResult_ok b _ cid _ _ h10]
  refine ⟨hmain, ?_⟩
  rw [hmain, versionsFor_append_version s cid _ rfl, hprior]
  rfl

/-- A well-behaved success-path run used to instantiate C5. -/
def bGoodC5 : Behavior := ⟨true, crawlChanged "c5" "f5", parseGood, true, true⟩

/-- Witness for C5 at one concrete run starting from the empty store. -/
theorem claim_C5_witness :
    (runMain bGoodC5 2 emptyStore =
      ({ versions :=
           emptyStore.versions
             ++ [⟨2, "2026-Q1", "f5", [("cashback", "2 percent")], "c5"⟩],
         outcomes := emptyStore.outcomes ++ [⟨2, "SUCCESS", none⟩] },
       Termination.outcome "SUCCESS" none) ∧
    (runMain bGoodC5 2 emptyStore).1.versionsFor 2
      = [⟨2, "2026-Q1", "f5", [("cashback", "2 percent")], "c5"⟩]) :=
  claim_C5 bGoodC5 2 emptyStore "c5" "f5" [("cashback", "2 percent")]
    rfl rfl rfl rfl rfl rfl rfl

/-- C6 (confirmed): when the fetch result has status `"NO_CHANGE"` (the
spec's UNCHANGED) and the DB calls return normally, the run records
exactly one NO_CHANGE CrawlOutcome, creates no ContentVersion (the store
is otherwise unchanged), and the run's result does not depend on the
parser at all — the Extractor is never invoked. -/
theorem claim_C6 (b : Behavior) (cid : Nat) (s : Store) (cr : CrawlResult)
    (h1 : b.setupOk = true) (h10 : b.logOk = true)
    (h2 : b.crawl (s.latestHash cid) = Except.ok cr)
    (h3 : cr.status = "NO_CHANGE") :
    runMain b cid s =
      ({ s with outcomes := s.outcomes ++ [⟨cid, "NO_CHANGE", none⟩] },
       Termination.outcome "NO_CHANGE" none) ∧
    ∀ p, runMain { b with parse := p } cid s = runMain b cid s := by
  constructor
  · rw [runMain_noChange b cid s cr h1 h2 h3, logResult_ok b s cid _ _ h10]
  · intro p
    rw [runMain_noChange { b with parse := p } cid s cr h1 h2 h3,
      runMain_noChange b cid s cr h1 h2 h3]
    rfl

/-- A run whose fetch reports NO_CHANGE. -/
def bC6 : Behavior :=
  ⟨true, fun _ => Except.ok ⟨"NO_CHANGE", none, none, none⟩, parseGood, true, true⟩

/-- Witness for C6 at one concrete run. -/
theorem claim_C6_witness :
    (runMain bC6 4 emptyStore =
      ({ emptyStore with
          outcomes := emptyStore.outcomes ++ [⟨4, "NO_CHANGE", none⟩] },
       Termination.outcome "NO_CHANGE" none) ∧
    ∀ p, runMain { bC6 with parse := p } 4 emptyStore
        = runMain bC6 4 emptyStore) :=
  claim_C6 bC6 4 emptyStore ⟨"NO_CHANGE", none, none, none⟩ rfl rfl rfl rfl

/-- C7 (confirmed): when the fetch result has status `"FAILED"` (the
spec's FETCH_FAILED) with error detail `d` and the DB calls return
normally, the run records exactly one FAILED CrawlOutcome carrying `d`,
creates no ContentVersion, and the run's result does not depend on the
parser at all — the Extractor is never invoked. -/
theorem claim_C7 (b : Behavior) (cid : Nat) (s : Store) (cr : CrawlResult)
    (d : String)
    (h1 : b.setupOk = true) (h10 : b.logOk = true)
    (h2 : b.crawl (s.latestHash cid) = Except.ok cr)
    (h3 : cr.status = "FAILED") (h4 : cr.error = some d) :
    runMain b cid s =
      ({ s with outcomes := s.outcomes ++ [⟨cid, "FAILED", some d⟩] },
       Termination.outcome "FAILED" (some d)) ∧
    ∀ p, runMain { b with parse := p } cid s = runMain b cid s := by
  constructor
  · rw [runMain_fetchFailed b cid s cr h1 h2 h3,
      logResult_ok b s cid _ _ h10, h4]
  · intro p
    rw [runMain_fetchFailed { b with parse := p } cid s cr h1 h2 h3,
      runMain_fetchFailed b cid s cr h1 h2 h3]
    rfl

/-- A run whose fetch reports FAILED with a timeout detail. -/
def bC7 : Behavior :=
  ⟨true, fun _ => Except.ok ⟨"FAILED", some "timeout", none, none⟩,
   parseGood, true, true⟩

/-- Witness for C7 at one concrete run (Scenario C's timeout detail). -/
theorem claim_C7_witness :
    (runMain bC7 4 emptyStore =
      ({ emptyStore with
          outcomes := emptyStore.outcomes ++ [⟨4, "FAILED", some "timeout"⟩] },
       Termination.outcome "FAILED" (some "timeout")) ∧
    ∀ p, runMain { bC7 with parse := p } 4 emptyStore
        = runMain bC7 4 emptyStore) :=
  claim_C7 bC7 4 emptyStore ⟨"FAILED", some "timeout", none, none⟩ "timeout"
    rfl rfl rfl rfl rfl

/-- A `lookupKey` hit implies key membership (`hasKey`). -/
theorem hasKey_of_lookupKey (r : Rewards) (k d : String)
    (h : lookupKey r k = some d) : hasKey r k = true := by
  unfold lookupKey at h
  unfold hasKey
  cases hf : List.find? (fun p => p.1 == k) r with
  | none => rw [hf] at h; cases h
  | some p =>
    have hp := List.find?_some hf
    exact List.any_eq_true.mpr ⟨p, List.mem_of_find?_eq_some hf, hp⟩

/-- C8 (Scenario D, confirmed): when the fetch reports CHANGED and the
parser returns a mapping whose `error` field holds `d` (the code's
encoding of extraction failure), the run records exactly one AI_FAILED
CrawlOutcome carrying `d`, creates no ContentVersion, and the fetched
content is not persisted anywhere: the resulting store equals the old
one with only the outcome row appended. -/
theorem claim_C8 (b : Behavior) (cid : Nat) (s : Store) (cr : CrawlResult)
    (md h d : String) (rj : Rewards)
    (h1 : b.setupOk = true) (h10 : b.logOk = true)
    (h2 : b.crawl (s.latestHash cid) = Except.ok cr)
    (h3 : cr.status = "CHANGED")
    (h5 : cr.content = some md) (h6 : cr.hash = some h)
    (h7 : b.parse md = Except.ok rj)
    (hk : lookupKey rj "error" = some d) :
    runMain b cid s =
      ({ s with outcomes := s.outcomes ++ [⟨cid, "AI_FAILED", some d⟩] },
       Termination.outcome "AI_FAILED" (some d)) := by
  have hs1 : cr.status ≠ "NO_CHANGE" := by rw [h3]; decide
  have hs2 : cr.status ≠ "FAILED" := by rw [h3]; decide
  rw [runMain_aiFailed b cid s cr md h rj h1 h2 hs1 hs2 h5 h6 h7
    (hasKey_of_lookupKey rj "error" d hk), logResult_ok b s cid _ _ h10, hk]

/-- A changed-content run whose parser reports failure through the
`error` field, as Scenario D describes. -/
def bC8 : Behavior :=
  ⟨true, crawlChanged "c8" "h8",
   fun _ => Except.ok [("error", "malformed response")], true, true⟩

/-- Witness for C8 at one concrete run. -/
theorem claim_C8_witness :
    runMain bC8 4 emptyStore =
      ({ emptyStore with
          outcomes :=
            emptyStore.outcomes ++ [⟨4, "AI_FAILED", some "malformed response"⟩] },
       Termination.outcome "AI_FAILED" (some "malformed response")) :=
  claim_C8 bC8 4 emptyStore ⟨"CHANGED", none, some "c8", some "h8"⟩
    "c8" "h8" "malformed response" [("error", "malformed response")]
    rfl rfl rfl rfl rfl rfl rfl rfl

/-- Two runs against an honest fetcher whose parser always reports
failure through the `error` field (and nothing changes remotely). -/
def bC9bad : Behavior :=
  ⟨true, honestCrawl "c9" "h9",
   fun _ => Except.ok [("error", "boom")], true, true⟩

/-- Counterexample to C9: with unchanged remote content and a
fingerprint-comparing fetcher, the first run terminates in the terminal
outcome AI_FAILED, yet the second run is AI_FAILED again rather than
NO_CHANGE — no fingerprint was committed, so the second fetch still
reports CHANGED. -/
theorem claim_C9_counterexample :
    (runAll [bC9bad, bC9bad] 2 emptyStore).2
      = [Termination.outcome "AI_FAILED" (some "boom"),
         Termination.outcome "AI_FAILED" (some "boom")] ∧
    Termination.outcome "AI_FAILED" (some "boom")
      ≠ Termination.outcome "NO_CHANGE" none := by
  decide

/-- C9 (amended): against a fetcher that compares the supplied
last-known fingerprint with the fixed remote fingerprint, if the first
run terminates with SUCCESS then the second run terminates with
NO_CHANGE, and the two runs never produce two SUCCESS outcomes from the
identical content; if the first run ends in any other terminal outcome
or a swallowed exception, no fingerprint was committed, so NO_CHANGE on
the second run is not guaranteed. -/
theorem claim_C9 (c h : String) (b : Behavior) (cid : Nat) (s : Store)
    (hcr : b.crawl = honestCrawl c h) :
    ((runMain b cid s).2.isSuccess = true →
      (runMain b cid (runMain b cid s).1).2
        = Termination.outcome "NO_CHANGE" none) ∧
    ¬((runMain b cid s).2.isSuccess = true ∧
      (runMain b cid (runMain b cid s).1).2.isSuccess = true) := by
  constructor
  · intro hs
    rw [honest_second_run c h b cid s hcr hs]
  · rintro ⟨hs1, hs2⟩
    rw [honest_second_run c h b cid s hcr hs1] at hs2
    simp [Termination.isSuccess] at hs2

/-- Two runs against an honest fetcher with a well-behaved parser. -/
def bC9good : Behavior :=
  ⟨true, honestCrawl "cw9" "hw9", parseGood, true, true⟩

/-- Witness for amended C9 at one concrete pair of runs. -/
theorem claim_C9_witness :
    (((runMain bC9good 4 emptyStore).2.isSuccess = true →
      (runMain bC9good 4 (runMain bC9good 4 emptyStore).1).2
        = Termination.outcome "NO_CHANGE" none) ∧
    ¬((runMain bC9good 4 emptyStore).2.isSuccess = true ∧
      (runMain bC9good 4 (runMain bC9good 4 emptyStore).1).2.isSuccess
        = true)) :=
  claim_C9 "cw9" "hw9" bC9good 4 emptyStore rfl

/-- C10 (confirmed): on a CHANGED run whose parser returned normally,
the pipeline classifies the run as AI_FAILED exactly when the returned
mapping contains the key `error` (with the outcome detail read from that
field), and whenever the mapping contains `error` no ContentVersion is
persisted — even if the mapping is otherwise a genuine reward payload. -/
theorem claim_C10 (b : Behavior) (cid : Nat) (s : Store) (cr : CrawlResult)
    (md h : String) (rj : Rewards)
    (h1 : b.setupOk = true) (h9 : b.saveOk = true) (h10 : b.logOk = true)
    (h2 : b.crawl (s.latestHash cid) = Except.ok cr)
    (h3 : cr.status = "CHANGED")
    (h5 : cr.content = some md) (h6 : cr.hash = some h)
    (h7 : b.parse md = Except.ok rj) :
    ((runMain b cid s).2
        = Termination.outcome "AI_FAILED" (lookupKey rj "error")
      ↔ hasKey rj "error" = true) ∧
    (hasKey rj "error" = true →
      (runMain b cid s).1.versions = s.versions) := by
  have hs1 : cr.status ≠ "NO_CHANGE" := by rw [h3]; decide
  have hs2 : cr.status ≠ "FAILED" := by rw [h3]; decide
  by_cases hk : hasKey rj "error" = true
  · rw [runMain_aiFailed b cid s cr md h rj h1 h2 hs1 hs2 h5 h6 h7 hk,
      logResult_ok b s cid _ _ h10]
    exact ⟨⟨fun _ => hk, fun _ => rfl⟩, fun _ => rfl⟩
  · rw [runMain_success b cid s cr md h rj h1 h2 hs1 hs2 h5 h6 h7
      (by simpa using hk) h9, logResult_ok b _ cid _ _ h10]
    refine ⟨⟨fun he => ?_, fun hkk => absurd hkk hk⟩,
      fun hkk => absurd hkk hk⟩
    simp at he

/-- A changed-content run whose parser returns a genuine-looking payload
that also carries an `error` field. -/
def bC10 : Behavior :=
  ⟨true, crawlChanged "mdc" "hc",
   fun _ => Except.ok [("cashback", "5 percent"), ("error", "x")], true, true⟩

/-- Witness for C10: a payload containing both a real reward field and an
`error` field is classified AI_FAILED and no version is persisted. -/
theorem claim_C10_witness :
    (((runMain bC10 8 emptyStore).2
        = Termination.outcome "AI_FAILED"
            (lookupKey [("cashback", "5 percent"), ("error", "x")] "error")
      ↔ hasKey [("cashback", "5 percent"), ("error", "x")] "error" = true) ∧
    (hasKey [("cashback", "5 percent"), ("error", "x")] "error" = true →
      (runMain bC10 8 emptyStore).1.versions = emptyStore.versions)) :=
  claim_C10 bC10 8 emptyStore ⟨"CHANGED", none, some "mdc", some "hc"⟩
    "mdc" "hc" [("cashback", "5 percent"), ("error", "x")]
    rfl rfl rfl rfl rfl rfl rfl rfl
